import Mathlib

/-!
Verification of the UPSCALE1 image-editing workspace (src/App.tsx).

The application is a React component; all of its editor logic is a set of
synchronous event handlers over a collection of state variables, plus a
handful of async handlers around external service calls.  We embed that
logic shallowly:

* numeric (percentage-space) geometry is embedded over `ℚ` — the source
  arithmetic is +, -, *, / by constants, `Math.min`/`Math.max`, which are
  exact on rationals;
* each `useState` variable becomes a field of an explicit state record;
* each handler becomes a pure function on that record;
* an async handler is split at its `await` point into a synchronous start
  (everything before the call: guards, mode changes) and a completion
  function applied to the call outcome (`Except String String`), so that
  other events may be interleaved while a call is pending;
* the UI gates handlers through `disabled={...}` attributes and
  conditional rendering; these guards appear in the event-step function,
  each noted with the source line it comes from.

Presentation-only state (loading messages, cursor overlays, canvas pixel
contents) is not modelled.  Identifiers produced by `Math.random` /
`Date.now()` in the source are modelled by a deterministic fresh-id
counter threaded through the state; timestamps are dropped.
-/

namespace Upscale1

/-- The AppMode enumeration from types.ts: the mode coordinator state. -/
inductive AppMode where
  | IDLE | GENERATING | EDITING | UPSCALING | UPSCALING_FREE | BATCH_PROCESSING
  | CROPPING | ZOOMING | REMOVING_WATERMARK | MAGIC_HAND | ERROR
deriving DecidableEq

/-- The ImageState record from types.ts (the current-image slot). -/
structure ImageState where
  url : Option String
  base64 : Option String
  beforeUrl : Option String
  resolution : String
  isUpscaled : Bool
  upscaleType : Option String := none
deriving DecidableEq

/-- Per-item status of a batch-queue entry (types.ts `BatchImage.status`). -/
inductive BatchStatus where
  | idle | processing | done | error
deriving DecidableEq

/-- The BatchImage record from types.ts. -/
structure BatchImage where
  id : String
  url : String
  base64 : String
  status : BatchStatus
  resolution : String
  upscaleType : Option String := none
  error : Option String := none
deriving DecidableEq

/-- The ResultItem record from types.ts (result-library entry; timestamp dropped). -/
structure ResultItem where
  id : String
  url : String
  base64 : String
  resolution : String
  upscaleType : String
deriving DecidableEq

/-- The HistoryItem record from types.ts (session history; timestamp dropped). -/
structure HistoryItem where
  id : String
  url : String
  prompt : String
deriving DecidableEq

/-- The `cropData` state (App.tsx line 49): which artifact a crop session targets. -/
structure CropData where
  id : String
  base64 : String
deriving DecidableEq

/-- Crop region center, in percentage space (App.tsx `cropPos`). -/
structure CropPos where
  x : ℚ
  y : ℚ
deriving DecidableEq

/-- Crop region size, in percentage space (App.tsx `cropSize`). -/
structure CropSize where
  w : ℚ
  h : ℚ
deriving DecidableEq

/-- The aspect-ratio lock (source values 1:1, 16:9, 9:16, Free;
renamed from the source name ratio for Lean naming reasons). -/
inductive RatioLock where
  | r1_1 | r16_9 | r9_16 | free
deriving DecidableEq

/-- The CropState record from App.tsx lines 16-20: one undo/redo history snapshot.
The source field `ratio` is called `ratioLock` here. -/
structure CropState where
  pos : CropPos
  size : CropSize
  ratioLock : RatioLock
deriving DecidableEq

/-- The crop-session state variables (App.tsx lines 50-52 and 63-64):
the live region, its lock, and the undo/redo history with its index.
The index is an `Int` because the source initializes it to `-1`. -/
structure CropSession where
  cropPos : CropPos
  cropSize : CropSize
  ratioLock : RatioLock
  cropHistory : List CropState
  cropHistoryIndex : Int
deriving DecidableEq

/-- Source function pushCropHistory (App.tsx lines 379-385): truncate the forward branch
(`slice(0, index+1)`), append the new snapshot, move the index to the new
last entry.  As in the source, the live `cropPos`/`cropSize` are not
touched here (callers update them separately). -/
def pushCropHistory (s : CropSession) (pos : CropPos) (size : CropSize)
    (lock : RatioLock) : CropSession :=
  let newHistory := s.cropHistory.take (s.cropHistoryIndex + 1).toNat ++ [⟨pos, size, lock⟩]
  { s with cropHistory := newHistory, cropHistoryIndex := (newHistory.length : Int) - 1 }

/-- Source function undoCrop (App.tsx lines 387-395): if the index is positive, restore
the snapshot below it and decrement.  The source reads
`cropHistory[cropHistoryIndex - 1]` unconditionally; the `none` fallback
below corresponds to the out-of-bounds access (`undefined` in JS), which
cannot occur while the session invariant `index < length` holds. -/
def undoCrop (s : CropSession) : CropSession :=
  if s.cropHistoryIndex > 0 then
    match s.cropHistory.get? (s.cropHistoryIndex - 1).toNat with
    | some prev =>
        { s with cropPos := prev.pos, cropSize := prev.size,
                 ratioLock := prev.ratioLock,
                 cropHistoryIndex := s.cropHistoryIndex - 1 }
    | none => s
  else s

/-- Source function redoCrop (App.tsx lines 397-405): if the index is below the last
entry, restore the snapshot above it and increment.  Out-of-bounds
fallback as in `undoCrop`. -/
def redoCrop (s : CropSession) : CropSession :=
  if s.cropHistoryIndex < (s.cropHistory.length : Int) - 1 then
    match s.cropHistory.get? (s.cropHistoryIndex + 1).toNat with
    | some next =>
        { s with cropPos := next.pos, cropSize := next.size,
                 ratioLock := next.ratioLock,
                 cropHistoryIndex := s.cropHistoryIndex + 1 }
    | none => s
  else s

/-- The crop-session part of `startCrop` (App.tsx lines 410-417): lock
1:1, centered 40%×40% region, history reset to that single snapshot,
index 0. -/
def startCropSession : CropSession :=
  { cropPos := ⟨50, 50⟩
    cropSize := ⟨40, 40⟩
    ratioLock := .r1_1
    cropHistory := [⟨⟨50, 50⟩, ⟨40, 40⟩, .r1_1⟩]
    cropHistoryIndex := 0 }

/-- The resize handles of the crop box (`activeHandle` values). -/
inductive Handle where
  | tl | tr | bl | br | center
deriving DecidableEq

/-- Source function handleCropMouseMove (App.tsx lines 466-513), with the pointer
position already converted to percentage space (`mouseX`, `mouseY`;
lines 472-473 of the source do that conversion from display pixels).
Returns the new `(cropPos, cropSize)`.

For a corner handle the source mutates `left/top/right/bottom`, then under
a ratio lock recomputes the height from the width and re-derives the
dragged horizontal edge; if the rectangle then exceeds the bottom or top
bound it re-clamps height and re-derives width.  `left`/`right` are never
re-derived by those clamps.  The local targetRatio of the source is `tgt`
here. -/
def handleCropMouseMove (pos : CropPos) (size : CropSize) (lock : RatioLock)
    (handle : Handle) (mouseX mouseY : ℚ) : CropPos × CropSize :=
  match handle with
  | .center =>
      let halfW := size.w / 2
      let halfH := size.h / 2
      let x := max halfW (min (100 - halfW) mouseX)
      let y := max halfH (min (100 - halfH) mouseY)
      (⟨x, y⟩, size)
  | h =>
      let left0 := pos.x - size.w / 2
      let top0 := pos.y - size.h / 2
      let right0 := pos.x + size.w / 2
      let bottom0 := pos.y + size.h / 2
      -- lines 487-490: move the dragged edges toward the pointer,
      -- keeping a minimum edge length of 5 and staying inside [0,100]
      let left1 := if h = .tl ∨ h = .bl then min (right0 - 5) (max 0 mouseX) else left0
      let right1 := if h = .tr ∨ h = .br then max (left0 + 5) (min 100 mouseX) else right0
      let top1 := if h = .tl ∨ h = .tr then min (bottom0 - 5) (max 0 mouseY) else top0
      let bottom1 := if h = .bl ∨ h = .br then max (top0 + 5) (min 100 mouseY) else bottom0
      let newW := right1 - left1
      let newH := bottom1 - top1
      if lock = .free then
        (⟨left1 + newW / 2, top1 + newH / 2⟩, ⟨newW, newH⟩)
      else
        let tgt : ℚ := if lock = .r1_1 then 1 else if lock = .r16_9 then 16 / 9 else 9 / 16
        -- lines 497-505: height from width; re-derive the dragged
        -- horizontal edge so the opposite corner stays fixed
        let newH1 := newW / tgt
        let top2 := if h = .tr ∨ h = .tl then bottom1 - newH1 else top1
        let bottom2 := if h = .br ∨ h = .bl then top1 + newH1 else bottom1
        -- line 506: bottom-bound re-clamp
        let bottom3 := if bottom2 > 100 then 100 else bottom2
        let newH2 := if bottom2 > 100 then bottom3 - top2 else newH1
        let newW2 := if bottom2 > 100 then newH2 * tgt else newW
        -- line 507: top-bound re-clamp
        let top3 := if top2 < 0 then 0 else top2
        let newH3 := if top2 < 0 then bottom3 - top3 else newH2
        let newW3 := if top2 < 0 then newH3 * tgt else newW2
        (⟨left1 + newW3 / 2, top3 + newH3 / 2⟩, ⟨newW3, newH3⟩)

/-- A pixel-space rectangle (top-left corner, width, height). -/
structure PixelRect where
  x : ℚ
  y : ℚ
  width : ℚ
  height : ℚ
deriving DecidableEq

/-- The pixel mapping of `executeCrop` (App.tsx lines 440-445): the
centered percentage region over a source of `realW`×`realH` pixels becomes
the extraction rectangle. -/
def executeCropRect (pos : CropPos) (size : CropSize) (realW realH : ℚ) : PixelRect :=
  let width := size.w / 100 * realW
  let height := size.h / 100 * realH
  let x := pos.x / 100 * realW - width / 2
  let y := pos.y / 100 * realH - height / 2
  ⟨x, y, width, height⟩

/-- The zoom-viewer state (App.tsx lines 56-58): scale, translate,
and the panning flag. -/
structure ZoomView where
  zoomScale : ℚ
  zoomTranslate : ℚ × ℚ
  isPanning : Bool
deriving DecidableEq

/-- The zoom state established by `startZoom` (App.tsx lines 346-351). -/
def startZoomView : ZoomView :=
  { zoomScale := 1, zoomTranslate := (0, 0), isPanning := false }

/-- The inputs the zoom viewer reacts to: wheel events (carrying the sign
of `deltaY`), the +/− step buttons, the Reset button, and the pan
mouse events. -/
inductive ZoomEvent where
  | wheel (deltaY : ℚ)
  | stepIn
  | stepOut
  | reset
  | panDown
  | panMove (dx dy : ℚ)
  | panUp
deriving DecidableEq

/-- One zoom-viewer input step:
* `wheel` is `handleZoomWheel` (lines 353-357): ±0.1 clamped to [0.5, 10];
* `stepOut`/`stepIn`/`reset` are the header buttons (lines 831-833):
  `max(0.5, prev - 0.5)`, `min(10, prev + 0.5)`, and `setZoomScale(1)` —
  the Reset button touches only the scale;
* `panDown`/`panMove`/`panUp` are `handleZoomMouseDown/Move/Up`
  (lines 359-376). -/
def zoomStep (s : ZoomView) : ZoomEvent → ZoomView
  | .wheel deltaY =>
      let delta : ℚ := if deltaY > 0 then -(1 / 10) else 1 / 10
      { s with zoomScale := max (1 / 2) (min 10 (s.zoomScale + delta)) }
  | .stepIn => { s with zoomScale := min 10 (s.zoomScale + 1 / 2) }
  | .stepOut => { s with zoomScale := max (1 / 2) (s.zoomScale - 1 / 2) }
  | .reset => { s with zoomScale := 1 }
  | .panDown => if s.zoomScale > 1 then { s with isPanning := true } else s
  | .panMove dx dy =>
      if s.isPanning then
        { s with zoomTranslate := (s.zoomTranslate.1 + dx, s.zoomTranslate.2 + dy) }
      else s
  | .panUp => { s with isPanning := false }

/-- The kinds of external-service calls the workspace makes
(`GeminiService.generateImage / editImage / upscaleTo4K / editImage with
the watermark prompt / editWithMask`). -/
inductive CallKind where
  | generate | edit | upscale4K | removeWatermark | magicErase
deriving DecidableEq

/-- An in-flight external call.  The completion closures in the source
capture `currentImage.url` as `previousUrl` and read `prompt` at start
time; those captured values travel with the pending call. -/
structure PendingCall where
  kind : CallKind
  prevUrl : Option String
  promptText : String
deriving DecidableEq

/-- The application state: one field per `useState` variable of App.tsx
that carries editor (non-presentation) state, plus `pending` for the
at-most-one in-flight external call of the primary workspace and
`nextId` for deterministic fresh identifiers. -/
structure AppState where
  mode : AppMode
  prompt : String
  currentImage : ImageState
  batchQueue : List BatchImage
  results : List ResultItem
  history : List HistoryItem
  error : Option String
  isComparing : Bool
  cropData : Option CropData
  crop : CropSession
  zoom : ZoomView
  pending : Option PendingCall
  nextId : Nat
deriving DecidableEq

/-- The initial state, per the `useState` initializers (App.tsx
lines 23-64). -/
def initialState : AppState :=
  { mode := .IDLE
    prompt := ""
    currentImage := ⟨none, none, none, "1K", false, none⟩
    batchQueue := []
    results := []
    history := []
    error := none
    isComparing := false
    cropData := none
    crop := { cropPos := ⟨50, 50⟩, cropSize := ⟨40, 40⟩, ratioLock := .r1_1,
              cropHistory := [], cropHistoryIndex := -1 }
    zoom := startZoomView
    pending := none
    nextId := 0 }

/-- Source function addResult (App.tsx lines 125-135): prepend a new result-library
entry.  The source id is `Math.random()`-based; here it is the fresh-id
counter. -/
def addResult (url base64 resolution upscaleType : String) (s : AppState) : AppState :=
  { s with results := ⟨toString s.nextId, url, base64, resolution, upscaleType⟩ :: s.results
           nextId := s.nextId + 1 }

/-- Source function addToHistory (App.tsx lines 332-334): prepend a session-history
entry, keeping the 20 most recent. -/
def addToHistory (url promptText : String) (s : AppState) : AppState :=
  { s with history := (⟨toString s.nextId, url, promptText⟩ :: s.history).take 20
           nextId := s.nextId + 1 }

/-- The synchronous prefix of `handleGenerate` (App.tsx lines 137-141),
up to the `await`: enter `GENERATING`, clear the error, leave comparison.
The guard `!prompt.trim()` is checked by `stepEvent`. -/
def startGenerate (s : AppState) : AppState :=
  { s with mode := .GENERATING, error := none, isComparing := false
           pending := some ⟨.generate, s.currentImage.url, s.prompt⟩ }

/-- The synchronous prefix of `handleEdit` (App.tsx lines 154-157):
capture `previousUrl`, enter `EDITING`. -/
def startEdit (s : AppState) : AppState :=
  { s with mode := .EDITING
           pending := some ⟨.edit, s.currentImage.url, s.prompt⟩ }

/-- The synchronous prefix of `handleRemoveWatermark` (App.tsx
lines 170-174): capture `previousUrl`, enter `REMOVING_WATERMARK`,
clear the error. -/
def startRemoveWatermark (s : AppState) : AppState :=
  { s with mode := .REMOVING_WATERMARK, error := none
           pending := some ⟨.removeWatermark, s.currentImage.url, s.prompt⟩ }

/-- The synchronous prefix of `castMagicHand` (App.tsx lines 242-250):
capture `previousUrl`, serialize the mask (opaque here), enter
`REMOVING_WATERMARK`.  The loading message is presentation state. -/
def startMagicErase (s : AppState) : AppState :=
  { s with mode := .REMOVING_WATERMARK
           pending := some ⟨.magicErase, s.currentImage.url, s.prompt⟩ }

/-- The synchronous prefix of `handleUpscale4K` (App.tsx lines 264-274):
after the external key check (no state effect), capture `previousUrl`,
enter `UPSCALING`, clear the error. -/
def startUpscale4K (s : AppState) : AppState :=
  { s with mode := .UPSCALING, error := none
           pending := some ⟨.upscale4K, s.currentImage.url, s.prompt⟩ }

/-- Completion of a pending external call: the `then`/`catch`/`finally`
continuation of each async handler, applied to the outcome of the call.

* `generate` (lines 142-151): on success replace the current image and
  record history; on failure record the error and enter `ERROR`; the
  `finally` returns the mode to `IDLE` either way.
* `edit` (lines 158-167): like `generate` but the failure path only
  records the error (no `ERROR` mode), and success keeps `beforeUrl`
  from the captured previous url and turns comparison on.
* `removeWatermark` (lines 175-186): like `generate`, success keeps the
  resolution and turns comparison on.
* `magicErase` (lines 251-261): success sets `IDLE` explicitly; the
  failure path records the error and enters `ERROR`, and there is NO
  `finally` — the mode is left at `ERROR`.
* `upscale4K` (lines 275-285): success installs the 4K artifact, adds a
  result-library entry and history; failure records the error and enters
  `ERROR`; `finally` returns to `IDLE`. -/
def completeCall (pc : PendingCall) (res : Except String String) (s : AppState) : AppState :=
  let s := { s with pending := none }
  match pc.kind, res with
  | .generate, .ok imageUrl =>
      let s := { s with currentImage := ⟨some imageUrl, some imageUrl, none, "1K", false, none⟩ }
      let s := addToHistory imageUrl pc.promptText s
      { s with mode := .IDLE }
  | .generate, .error msg =>
      { s with error := some msg, mode := .IDLE }
  | .edit, .ok imageUrl =>
      let s := { s with currentImage :=
        { s.currentImage with url := some imageUrl, base64 := some imageUrl,
                              beforeUrl := pc.prevUrl, isUpscaled := false,
                              resolution := "1K" } }
      let s := addToHistory imageUrl ("Edit: " ++ pc.promptText) s
      { s with isComparing := true, mode := .IDLE }
  | .edit, .error msg =>
      { s with error := some msg, mode := .IDLE }
  | .removeWatermark, .ok result =>
      let s := { s with currentImage :=
        { s.currentImage with url := some result, base64 := some result,
                              beforeUrl := pc.prevUrl } }
      let s := addToHistory result ("Auto Watermark Removal") s
      { s with isComparing := true, mode := .IDLE }
  | .removeWatermark, .error msg =>
      { s with error := some msg, mode := .IDLE }
  | .magicErase, .ok result =>
      let s := { s with currentImage :=
        { s.currentImage with url := some result, base64 := some result,
                              beforeUrl := pc.prevUrl } }
      let s := addToHistory result ("Magic Hand Removal") s
      { s with isComparing := true, mode := .IDLE }
  | .magicErase, .error msg =>
      -- no finally clause: the mode stays at ERROR
      { s with error := some msg, mode := .ERROR }
  | .upscale4K, .ok result =>
      let s := { s with currentImage := ⟨some result, some result, pc.prevUrl, "4K", true, some "Pro 4K"⟩ }
      let s := addResult result result ("4K") ("Pro 4K") s
      let s := addToHistory result ("Pro 4K Enhancement") s
      { s with isComparing := true, mode := .IDLE }
  | .upscale4K, .error msg =>
      { s with error := some msg, mode := .IDLE }

/-- Source function startCrop (App.tsx lines 407-418), for a target with the given id
and base64 (the id is the text current for the current-image slot): record the target,
enter `CROPPING`, and reset the crop session. -/
def startCrop (id base64 : String) (s : AppState) : AppState :=
  { s with cropData := some ⟨id, base64⟩, mode := .CROPPING, crop := startCropSession }

/-- The artifact-routing part of `executeCrop` (App.tsx lines 450-462),
given the cropped artifact produced by the canvas: a current-image target
replaces the current image (keeping the previous url as `beforeUrl`);
any other target replaces the matching batch-queue entry, and if the id
names a result-library entry a new result entry is also added.  Either
way the mode returns to `IDLE` and the crop target is cleared. -/
def executeCropApply (cropped : String) (s : AppState) : AppState :=
  match s.cropData with
  | none => s
  | some cd =>
      let s1 :=
        if cd.id = "current" then
          { s with currentImage :=
            { s.currentImage with url := some cropped, base64 := some cropped,
                                  beforeUrl := s.currentImage.url,
                                  resolution := "Cropped" } }
        else
          let s2 :=
            if (s.results.find? (fun r => r.id = cd.id)).isSome then
              addResult cropped cropped ("Cropped") ("Manual Edit") s
            else s
          { s2 with batchQueue := s2.batchQueue.map (fun item =>
              if item.id = cd.id then
                { item with url := cropped, base64 := cropped, resolution := "Cropped" }
              else item) }
      { s1 with mode := .IDLE, cropData := none }

/-- The loop body sequence of `handleBatchUpscale` (App.tsx lines
292-309) over the remaining queue: skip `done` items; otherwise call the
service on the item (`svc` is the external collaborator), on success mark
it `done` with the enhanced artifact and add a result-library entry, on
failure mark it `error` and attach the message.  Returns the updated
application state (results, fresh ids) and the processed queue. -/
def processBatch (svc : String → Except String String) :
    AppState → List BatchImage → AppState × List BatchImage
  | s, [] => (s, [])
  | s, item :: rest =>
      if item.status = .done then
        let (s1, q) := processBatch svc s rest
        (s1, item :: q)
      else
        match svc item.base64 with
        | .ok result =>
            let item1 := { item with url := result, base64 := result, status := .done,
                                     resolution := "Enhanced HD", upscaleType := some "Free" }
            let (s1, q) := processBatch svc (addResult result result ("Enhanced HD") ("Free Batch") s) rest
            (s1, item1 :: q)
        | .error msg =>
            let item1 := { item with status := .error, error := some msg }
            let (s1, q) := processBatch svc s rest
            (s1, item1 :: q)

/-- Source function handleBatchUpscale (App.tsx lines 288-311): no-op on an empty
queue; otherwise enter `BATCH_PROCESSING`, process the queue strictly in
order, and return to `IDLE`. -/
def handleBatchUpscale (svc : String → Except String String) (s : AppState) : AppState :=
  if s.batchQueue.length = 0 then s
  else
    let (s1, q) := processBatch svc { s with mode := .BATCH_PROCESSING } s.batchQueue
    { s1 with batchQueue := q, mode := .IDLE }

/-- The user/system events the embedding tracks.  Each click event exists
only where the UI renders the control; its enabling guard is in
`stepEvent`. -/
inductive Event where
  | uploadFile (base64 : String)
  | clickGenerate
  | clickEdit
  | clickUpscale4K
  | clickRemoveWatermark
  | clickMagicHand
  | clickExecuteErase
  | clickStartZoom
  | clickZoomClose
  | clickAdvancedCrop
  | clickResultCrop (rid : String)
  | clickDiscardCrop
  | clickDismissError
  | resolveCall (res : Except String String)

/-- One event step.  A disabled or unrendered control is inert, so a
guard failure leaves the state unchanged.  Guards, with their source:

* `uploadFile` (`handleFileUpload`, lines 313-326): always available;
  appends a batch entry and fills the current slot if empty.
* `clickGenerate`: button line 562, `disabled` unless the prompt is
  nonempty and the mode is `IDLE`.
* `clickEdit`: button line 663, rendered only in `IDLE` (line 658) with a
  current image, `disabled` without a prompt; handler guard line 155.
* `clickUpscale4K`: button line 662, rendered only in `IDLE` with a
  current image, `disabled` when the resolution is already 4K.
* `clickRemoveWatermark`: button lines 601-609, `disabled` unless `IDLE`
  with a current image.
* `clickMagicHand` (`startMagicHand`, lines 190-203): button lines
  592-600, `disabled` unless `IDLE` with a current image; enters
  `MAGIC_HAND` (the canvas clear is raster state, not modelled).
* `clickExecuteErase` (`castMagicHand`): button line 637, rendered only
  in the `MAGIC_HAND` banner; handler guard line 243.
* `clickStartZoom` (`startZoom`): button line 660, rendered only in
  `IDLE`; handler guard line 347.
* `clickZoomClose`: button lines 834-839, rendered only in `ZOOMING`.
* `clickAdvancedCrop`: button line 661, rendered only in `IDLE`; calls
  `startCrop(currentImage)` whose guard is line 408.
* `clickResultCrop` (result-library Crop button, line 804): rendered
  whenever the result exists, with NO mode guard; calls `startCrop(res)`.
* `clickDiscardCrop`: button line 952, rendered only in `CROPPING`.
* `clickDismissError` (banner button line 1015): rendered while an error
  message is shown; clears only the message.
* `resolveCall`: the pending external call settles with the given
  outcome. -/
def stepEvent (s : AppState) : Event → AppState
  | .uploadFile base64 =>
      let item : BatchImage := ⟨toString s.nextId, base64, base64, .idle, "Original", none, none⟩
      let s1 := { s with batchQueue := s.batchQueue ++ [item], nextId := s.nextId + 1 }
      if s.currentImage.url = none then
        { s1 with currentImage := ⟨some base64, some base64, none, "Original", false, none⟩ }
      else s1
  | .clickGenerate =>
      if s.prompt ≠ "" ∧ s.mode = .IDLE then startGenerate s else s
  | .clickEdit =>
      if s.mode = .IDLE ∧ s.prompt ≠ "" ∧ s.currentImage.url ≠ none ∧ s.currentImage.base64 ≠ none then
        startEdit s
      else s
  | .clickUpscale4K =>
      if s.mode = .IDLE ∧ s.currentImage.url ≠ none ∧ s.currentImage.base64 ≠ none ∧
          s.currentImage.resolution ≠ "4K" then
        startUpscale4K s
      else s
  | .clickRemoveWatermark =>
      if s.mode = .IDLE ∧ s.currentImage.url ≠ none ∧ s.currentImage.base64 ≠ none then
        startRemoveWatermark s
      else s
  | .clickMagicHand =>
      if s.mode = .IDLE ∧ s.currentImage.url ≠ none then
        { s with mode := .MAGIC_HAND }
      else s
  | .clickExecuteErase =>
      if s.mode = .MAGIC_HAND ∧ s.currentImage.base64 ≠ none then
        startMagicErase s
      else s
  | .clickStartZoom =>
      if s.mode = .IDLE ∧ s.currentImage.url ≠ none then
        { s with zoom := startZoomView, mode := .ZOOMING }
      else s
  | .clickZoomClose =>
      if s.mode = .ZOOMING then { s with mode := .IDLE } else s
  | .clickAdvancedCrop =>
      match s.currentImage.base64 with
      | some b64 => if s.mode = .IDLE then startCrop ("current") b64 s else s
      | none => s
  | .clickResultCrop rid =>
      -- the one mode-entry control with no IDLE guard (line 804)
      match s.results.find? (fun r => r.id = rid) with
      | some r => if r.base64 ≠ "" then startCrop r.id r.base64 s else s
      | none => s
  | .clickDiscardCrop =>
      if s.mode = .CROPPING then { s with mode := .IDLE } else s
  | .clickDismissError =>
      if s.error ≠ none then { s with error := none } else s
  | .resolveCall res =>
      match s.pending with
      | some pc => completeCall pc res s
      | none => s

/-- Run a sequence of events from a state. -/
def runTrace (s : AppState) (evs : List Event) : AppState :=
  evs.foldl stepEvent s

/-- Event trace exercising the ungated result-library Crop button: load an
image, run a successful Pro-4K upscale (which adds a result-library
entry), start an auto watermark removal, and — while that call is still
pending — click Crop on the result entry. -/
def modeEntryViolationTrace : List Event :=
  [.uploadFile ("img"), .clickUpscale4K, .resolveCall (.ok ("up1")),
   .clickRemoveWatermark, .clickResultCrop ("1")]

/-- Event trace for a failing magic-hand erase: load an image, enter
magic-hand mode, execute the erase, let the external call fail, then
dismiss the error banner. -/
def magicHandFailureTrace : List Event :=
  [.uploadFile ("img"), .clickMagicHand, .clickExecuteErase,
   .resolveCall (.error ("boom")), .clickDismissError]

/-- The crop-history scenario of the spec: a fresh crop session, then
push 40×40, push 30×30, undo, push 20×20. -/
def cropHistoryScenario : CropSession :=
  pushCropHistory
    (undoCrop
      (pushCropHistory
        (pushCropHistory startCropSession ⟨50, 50⟩ ⟨40, 40⟩ .r1_1)
        ⟨50, 50⟩ ⟨30, 30⟩ .r1_1))
    ⟨50, 50⟩ ⟨20, 20⟩ .r1_1

/-- A batch queue of three idle items. -/
def batchScenarioQueue : List BatchImage :=
  [⟨"a", "img1", "img1", .idle, "Original", none, none⟩,
   ⟨"b", "img2", "img2", .idle, "Original", none, none⟩,
   ⟨"c", "img3", "img3", .idle, "Original", none, none⟩]

/-- An external collaborator that fails exactly on the second item of
`batchScenarioQueue`. -/
def batchScenarioSvc : String → Except String String :=
  fun b => if b = "img2" then .error ("boom") else .ok (b ++ "X")

/-- A crop session whose live region agrees with the history entry at the
current index (the situation right after a push, undo, redo, or session
start). -/
def roundtripWitnessSession : CropSession :=
  { cropPos := ⟨50, 50⟩, cropSize := ⟨30, 30⟩, ratioLock := .r1_1,
    cropHistory := [⟨⟨50, 50⟩, ⟨40, 40⟩, .r1_1⟩, ⟨⟨50, 50⟩, ⟨30, 30⟩, .r1_1⟩],
    cropHistoryIndex := 1 }

/-- A crop session whose live region differs from the history entry at the
current index — the state reached by dragging a handle after a push,
since releasing the handle never pushes (`handleHandleUp` is defined at
App.tsx line 515 but attached to no element). -/
def desyncedSession : CropSession :=
  { cropPos := ⟨10, 10⟩, cropSize := ⟨20, 20⟩, ratioLock := .free,
    cropHistory := [⟨⟨50, 50⟩, ⟨40, 40⟩, .r1_1⟩, ⟨⟨50, 50⟩, ⟨30, 30⟩, .r1_1⟩],
    cropHistoryIndex := 1 }

/-- An application state in the middle of a crop session targeting batch
entry b (not the current image). -/
def frameWitnessState : AppState :=
  { initialState with
      cropData := some ⟨"b", "img2"⟩
      batchQueue := [⟨"a", "img1", "img1", .idle, "Original", none, none⟩,
                     ⟨"b", "img2", "img2", .idle, "Original", none, none⟩] }

/-- Helper for C5: one zoom input keeps the scale inside [0.5, 10]. -/
theorem zoomStep_scale_bounds (s : ZoomView) (e : ZoomEvent)
    (h1 : 1 / 2 ≤ s.zoomScale) (h2 : s.zoomScale ≤ 10) :
    1 / 2 ≤ (zoomStep s e).zoomScale ∧ (zoomStep s e).zoomScale ≤ 10 := by
  cases e with
  | wheel d =>
      refine ⟨le_max_left _ _, max_le (by norm_num) (min_le_left _ _)⟩
  | stepIn =>
      exact ⟨le_min (by norm_num) (by linarith), min_le_left _ _⟩
  | stepOut =>
      exact ⟨le_max_left _ _, max_le (by norm_num) (by linarith)⟩
  | reset => exact ⟨by norm_num [zoomStep], by norm_num [zoomStep]⟩
  | panDown =>
      simp only [zoomStep]
      split_ifs <;> exact ⟨h1, h2⟩
  | panMove dx dy =>
      simp only [zoomStep]
      split_ifs <;> exact ⟨h1, h2⟩
  | panUp => exact ⟨h1, h2⟩

/-- Helper for C5: every zoom input sequence from the startZoom state
keeps the scale inside [0.5, 10]. -/
theorem zoom_scale_invariant (evs : List ZoomEvent) :
    1 / 2 ≤ (evs.foldl zoomStep startZoomView).zoomScale ∧
      (evs.foldl zoomStep startZoomView).zoomScale ≤ 10 := by
  suffices h : ∀ s : ZoomView, 1 / 2 ≤ s.zoomScale → s.zoomScale ≤ 10 →
      1 / 2 ≤ (evs.foldl zoomStep s).zoomScale ∧ (evs.foldl zoomStep s).zoomScale ≤ 10 by
    exact h startZoomView (by norm_num [startZoomView]) (by norm_num [startZoomView])
  induction evs with
  | nil => exact fun _ h1 h2 => ⟨h1, h2⟩
  | cons e rest ih =>
      intro s h1 h2
      obtain ⟨g1, g2⟩ := zoomStep_scale_bounds s e h1 h2
      exact ih _ g1 g2

/-- C1: the claim says the interactive modes and a pending external call
mutually exclude each other, and that startCrop establishes its mode only
from Idle.  The code violates this: the result-library Crop button
(App.tsx line 804) carries no mode guard, so after the trace below the
coordinator is in `CROPPING` while the watermark-removal call is still
pending — startCrop ran while the mode was `REMOVING_WATERMARK`, not
`IDLE`. -/
theorem C1_mode_entry_during_pending_call :
    (runTrace initialState (modeEntryViolationTrace.take 4)).mode = .REMOVING_WATERMARK ∧
    (runTrace initialState (modeEntryViolationTrace.take 4)).pending ≠ none ∧
    (runTrace initialState modeEntryViolationTrace).mode = .CROPPING ∧
    (runTrace initialState modeEntryViolationTrace).pending ≠ none := by
  decide

/-- C2: the claim says every failing external call records a user-facing
message and the coordinator then returns to Idle, immediately or once the
error is dismissed.  For the magic-hand erase the code violates this:
`castMagicHand` has no finally clause, so a failure leaves the mode at
`ERROR`, and the banner dismiss button only clears the message — after
dismissal the mode is still `ERROR`, not `IDLE`. -/
theorem C2_magic_hand_failure_stuck_outside_idle :
    (runTrace initialState (magicHandFailureTrace.take 4)).error = some ("boom") ∧
    (runTrace initialState (magicHandFailureTrace.take 4)).mode = .ERROR ∧
    (runTrace initialState magicHandFailureTrace).error = none ∧
    (runTrace initialState magicHandFailureTrace).mode = .ERROR := by
  decide

/-- C3: starting from a fresh crop session, push 40×40, push 30×30,
undo, push 20×20 yields a history of length 3 (the two entries before the
undo plus the new one) with index 2, redo is then a no-op, and the
discarded forward-branch entry 30×30 is gone. -/
theorem C3_crop_history_truncation_scenario :
    cropHistoryScenario.cropHistory
      = [⟨⟨50, 50⟩, ⟨40, 40⟩, .r1_1⟩, ⟨⟨50, 50⟩, ⟨40, 40⟩, .r1_1⟩,
         ⟨⟨50, 50⟩, ⟨20, 20⟩, .r1_1⟩] ∧
    cropHistoryScenario.cropHistoryIndex = 2 ∧
    redoCrop cropHistoryScenario = cropHistoryScenario ∧
    (⟨⟨50, 50⟩, ⟨30, 30⟩, .r1_1⟩ : CropState) ∉ cropHistoryScenario.cropHistory := by
  decide

/-- C4 counterexample: for the in-bounds region centered (50,30) of size
40×40 (bottom-right corner at (70,50)) and pointer (10,10), resizing via
the tl handle under the 1:1 lock trips the top-bound re-clamp, which
re-derives the width while leaving the left edge alone: the new
bottom-right corner is at x = 60, not 70 — the claim that the br corner
is unchanged including in the re-clamped case is false. -/
theorem C4_br_corner_moves_on_top_clamp :
    (⟨50, 30⟩ : CropPos).y + (⟨40, 40⟩ : CropSize).h / 2 ≤ 100 ∧
    (handleCropMouseMove ⟨50, 30⟩ ⟨40, 40⟩ .r1_1 .tl 10 10).1.x
        + (handleCropMouseMove ⟨50, 30⟩ ⟨40, 40⟩ .r1_1 .tl 10 10).2.w / 2 = 60 ∧
    (⟨50, 30⟩ : CropPos).x + (⟨40, 40⟩ : CropSize).w / 2 = 70 := by
  refine ⟨by norm_num, ?_, by norm_num⟩
  simp only [handleCropMouseMove]
  simp only [show (Handle.tl = Handle.tr ∨ Handle.tl = Handle.br) = False by simp,
             show (Handle.tl = Handle.bl ∨ Handle.tl = Handle.br) = False by simp,
             show (Handle.tl = Handle.tl ∨ Handle.tl = Handle.bl) = True by simp,
             show (Handle.tl = Handle.tl ∨ Handle.tl = Handle.tr) = True by simp,
             show (Handle.tl = Handle.br ∨ Handle.tl = Handle.bl) = False by simp,
             show (RatioLock.r1_1 = RatioLock.free) = False by simp,
             show (RatioLock.r1_1 = RatioLock.r1_1) = True by simp,
             if_true, if_false]
  norm_num [min_def, max_def]

/-- C4 amended: resizing via the tl handle with the 1:1 lock always
yields a square (width = height); for a region whose bottom edge is in
bounds the bottom edge — the y-coordinate of the br corner — is always
preserved, and the full br corner is preserved whenever the width implied
by the clamped pointer does not exceed the distance to the top bound
(i.e. the top-bound re-clamp does not trip). -/
theorem C4_tl_square_resize (pos : CropPos) (size : CropSize) (mouseX mouseY : ℚ) :
    (handleCropMouseMove pos size .r1_1 .tl mouseX mouseY).2.w
      = (handleCropMouseMove pos size .r1_1 .tl mouseX mouseY).2.h ∧
    (pos.y + size.h / 2 ≤ 100 →
      (handleCropMouseMove pos size .r1_1 .tl mouseX mouseY).1.y
          + (handleCropMouseMove pos size .r1_1 .tl mouseX mouseY).2.h / 2
        = pos.y + size.h / 2) ∧
    (pos.y + size.h / 2 ≤ 100 →
      (pos.x + size.w / 2) - min (pos.x + size.w / 2 - 5) (max 0 mouseX) ≤ pos.y + size.h / 2 →
      (handleCropMouseMove pos size .r1_1 .tl mouseX mouseY).1.x
          + (handleCropMouseMove pos size .r1_1 .tl mouseX mouseY).2.w / 2
        = pos.x + size.w / 2) := by
  simp +decide only [handleCropMouseMove, if_true, if_false, div_one, mul_one]
  refine ⟨?_, ?_, ?_⟩
  · split_ifs <;> ring
  · intro hb
    have hb' : ¬ (pos.y + size.h / 2 > 100) := by linarith
    simp only [if_neg hb']
    split_ifs <;> ring
  · intro hb hnc
    have hb' : ¬ (pos.y + size.h / 2 > 100) := by linarith
    have hnc' : ¬ (pos.y + size.h / 2
        - (pos.x + size.w / 2 - min (pos.x + size.w / 2 - 5) (max 0 mouseX)) < 0) := by
      linarith
    simp only [if_neg hb', if_neg hnc']
    ring

/-- C4 witness: the amended theorem applied to the region centered
(50,50) of size 40×40 with pointer (35,35), where no re-clamp trips and
the br corner stays at (70,70). -/
theorem C4_tl_square_resize_witness :
    ((50 : ℚ) + 40 / 2 ≤ 100) ∧
    ((handleCropMouseMove ⟨50, 50⟩ ⟨40, 40⟩ .r1_1 .tl 35 35).1.x
        + (handleCropMouseMove ⟨50, 50⟩ ⟨40, 40⟩ .r1_1 .tl 35 35).2.w / 2
      = (50 : ℚ) + 40 / 2) :=
  ⟨by norm_num,
   (C4_tl_square_resize ⟨50, 50⟩ ⟨40, 40⟩ 35 35).2.2 (by norm_num)
     (by norm_num [min_def, max_def])⟩

/-- C5 amended: every sequence of zoom inputs keeps the scale inside
[0.5, 10]; the Reset operation sets the scale to 1 but leaves the
translate vector exactly as it was — translate is zeroed only on entering
zoom mode. -/
theorem C5_zoom_clamp_and_reset :
    (∀ evs : List ZoomEvent,
        1 / 2 ≤ (evs.foldl zoomStep startZoomView).zoomScale ∧
        (evs.foldl zoomStep startZoomView).zoomScale ≤ 10) ∧
    (∀ s : ZoomView, (zoomStep s .reset).zoomScale = 1 ∧
        (zoomStep s .reset).zoomTranslate = s.zoomTranslate) ∧
    startZoomView.zoomTranslate = (0, 0) :=
  ⟨zoom_scale_invariant, fun _ => ⟨rfl, rfl⟩, rfl⟩

/-- C5 counterexample: zoom in one step, pan by (5,7), then press Reset —
the scale is back at 1 but the translate vector is still (5,7), so the
claim that resetting the scale to 1 also resets translate to (0,0) is
false. -/
theorem C5_reset_does_not_clear_translate :
    (([ZoomEvent.stepIn, .panDown, .panMove 5 7, .reset].foldl
        zoomStep startZoomView).zoomScale = 1) ∧
    (([ZoomEvent.stepIn, .panDown, .panMove 5 7, .reset].foldl
        zoomStep startZoomView).zoomTranslate ≠ (0, 0)) := by
  norm_num [List.foldl, zoomStep, startZoomView]

/-- C6: committing a crop of a 1000×1000 source with region center
(50,50) and size (40,40) extracts exactly the 400×400 sub-rectangle from
(300,300) to (700,700). -/
theorem C6_crop_pixel_mapping :
    executeCropRect ⟨50, 50⟩ ⟨40, 40⟩ 1000 1000 = ⟨300, 300, 400, 400⟩ ∧
    (executeCropRect ⟨50, 50⟩ ⟨40, 40⟩ 1000 1000).x
        + (executeCropRect ⟨50, 50⟩ ⟨40, 40⟩ 1000 1000).width = 700 ∧
    (executeCropRect ⟨50, 50⟩ ⟨40, 40⟩ 1000 1000).y
        + (executeCropRect ⟨50, 50⟩ ⟨40, 40⟩ 1000 1000).height = 700 := by
  refine ⟨?_, by norm_num [executeCropRect], by norm_num [executeCropRect]⟩
  simp only [executeCropRect, PixelRect.mk.injEq]
  norm_num

/-- C7: for every external-call operation, neither the synchronous start
of the handler nor the failure continuation touches the current image
artifact — on failure the current image (url, base64, beforeUrl,
resolution, all of it) is exactly what it was before the operation
started. -/
theorem C7_failure_preserves_current_image (k : CallKind) (pv : Option String)
    (pt msg : String) (s : AppState) :
    (completeCall ⟨k, pv, pt⟩ (.error msg) s).currentImage = s.currentImage ∧
    (startGenerate s).currentImage = s.currentImage ∧
    (startEdit s).currentImage = s.currentImage ∧
    (startRemoveWatermark s).currentImage = s.currentImage ∧
    (startMagicErase s).currentImage = s.currentImage ∧
    (startUpscale4K s).currentImage = s.currentImage := by
  cases k <;>
    simp [completeCall, startGenerate, startEdit, startRemoveWatermark,
          startMagicErase, startUpscale4K]

/-- C8: processing a batch queue of three items where the external call
fails exactly on the second leaves the statuses done, error, done; the
error message is attached to the second item only; and the coordinator is
back at Idle — the failure of item 2 did not stop item 3. -/
theorem C8_batch_failure_isolated :
    ((handleBatchUpscale batchScenarioSvc
        { initialState with batchQueue := batchScenarioQueue }).batchQueue.map
          (fun i => i.status)) = [.done, .error, .done] ∧
    ((handleBatchUpscale batchScenarioSvc
        { initialState with batchQueue := batchScenarioQueue }).batchQueue.map
          (fun i => i.error)) = [none, some ("boom"), none] ∧
    (handleBatchUpscale batchScenarioSvc
        { initialState with batchQueue := batchScenarioQueue }).mode = .IDLE := by
  decide

/-- C9 amended: undo then redo with no intervening push restores the
exact prior session — region position, size, ratio lock, and index —
for every crop-history state whose live region agrees with the history
entry at the current index (which holds whenever the last interaction was
a push, undo, redo, or session start). -/
theorem C9_undo_redo_roundtrip (s : CropSession)
    (h1 : 0 < s.cropHistoryIndex)
    (h2 : s.cropHistoryIndex < (s.cropHistory.length : Int))
    (h3 : s.cropHistory.get? s.cropHistoryIndex.toNat
        = some ⟨s.cropPos, s.cropSize, s.ratioLock⟩) :
    redoCrop (undoCrop s) = s := by
  have hlt : (s.cropHistoryIndex - 1).toNat < s.cropHistory.length := by omega
  obtain ⟨prev, hprev⟩ : ∃ p, s.cropHistory.get? (s.cropHistoryIndex - 1).toNat = some p := by
    rw [List.get?_eq_get hlt]
    exact ⟨_, rfl⟩
  have hundo : undoCrop s
      = { s with cropPos := prev.pos, cropSize := prev.size,
                 ratioLock := prev.ratioLock,
                 cropHistoryIndex := s.cropHistoryIndex - 1 } := by
    unfold undoCrop
    rw [if_pos h1, hprev]
  rw [hundo]
  unfold redoCrop
  rw [if_pos (by simpa using by omega : s.cropHistoryIndex - 1 < (s.cropHistory.length : Int) - 1)]
  have hidx : (s.cropHistoryIndex - 1 + 1).toNat = s.cropHistoryIndex.toNat := by omega
  simp only [hidx, h3]
  cases s with
  | mk pos size lock hist idx =>
      simp only [CropSession.mk.injEq, and_true, true_and, eq_self_iff_true]
      omega

/-- C9 witness: the round-trip theorem applied to a two-entry session at
index 1 whose live region matches the history entry there. -/
theorem C9_undo_redo_roundtrip_witness :
    0 < roundtripWitnessSession.cropHistoryIndex ∧
    redoCrop (undoCrop roundtripWitnessSession) = roundtripWitnessSession :=
  ⟨by decide,
   C9_undo_redo_roundtrip roundtripWitnessSession (by decide) (by decide) (by decide)⟩

/-- C9 counterexample: a crop-history state with index 1 whose live
region was dragged after the last push (reachable because handle release
never pushes — `handleHandleUp` is attached to no element): undo then
redo lands on the history entry, not on the dragged region, so the claim
as stated — round-trip for every crop-history state with positive index —
is false. -/
theorem C9_roundtrip_fails_when_desynced :
    0 < desyncedSession.cropHistoryIndex ∧
    redoCrop (undoCrop desyncedSession) ≠ desyncedSession := by
  decide

/-- C10: committing a crop for a non-current target (cropData.id not
equal to the text current) leaves the current image exactly unchanged,
replaces exactly the matching batch-queue entries, adds one result entry
precisely when the target id names a result-library entry, and keeps
every non-matching queue entry. -/
theorem C10_crop_noncurrent_frame (s : AppState) (cd : CropData) (cropped : String)
    (hcd : s.cropData = some cd) (hid : cd.id ≠ "current") :
    (executeCropApply cropped s).currentImage = s.currentImage ∧
    (executeCropApply cropped s).batchQueue
      = s.batchQueue.map (fun item =>
          if item.id = cd.id then
            { item with url := cropped, base64 := cropped, resolution := "Cropped" }
          else item) ∧
    (executeCropApply cropped s).results
      = (if (s.results.find? (fun r => r.id = cd.id)).isSome then
           ⟨toString s.nextId, cropped, cropped, "Cropped", "Manual Edit"⟩ :: s.results
         else s.results) ∧
    (∀ item ∈ s.batchQueue, item.id ≠ cd.id → item ∈ (executeCropApply cropped s).batchQueue) := by
  have hstep : executeCropApply cropped s
      = (let s2 :=
           if (s.results.find? (fun r => r.id = cd.id)).isSome then
             addResult cropped cropped ("Cropped") ("Manual Edit") s
           else s
         { s2 with batchQueue := s2.batchQueue.map (fun item =>
             if item.id = cd.id then
               { item with url := cropped, base64 := cropped, resolution := "Cropped" }
             else item), mode := .IDLE, cropData := none }) := by
    unfold executeCropApply
    rw [hcd]
    simp only [if_neg hid]
  rw [hstep]
  split_ifs with hfound <;>
    refine ⟨rfl, rfl, rfl, ?_⟩ <;>
    · intro item hmem hne
      simp only [addResult, List.mem_map]
      exact ⟨item, hmem, by simp [if_neg hne]⟩

/-- C10 witness: the frame theorem applied to a crop session targeting
batch entry b of a two-entry queue. -/
theorem C10_crop_noncurrent_frame_witness :
    frameWitnessState.cropData = some ⟨"b", "img2"⟩ ∧
    ("b" : String) ≠ "current" ∧
    (executeCropApply ("crop") frameWitnessState).currentImage
      = frameWitnessState.currentImage :=
  ⟨by decide, by decide,
   (C10_crop_noncurrent_frame frameWitnessState ⟨"b", "img2"⟩ ("crop")
      (by decide) (by decide)).1⟩

end Upscale1
